import Mathlib

/-!
Verification of the post-collection query engine (filter, sort, paginate),
the stats aggregator, the edit diff engine and the remote-failure handling
of the social-media-posts dashboard.

The JavaScript source is shallowly embedded as follows:
* JS objects become structures; a field that may be `undefined`/`null`
  becomes an `Option`.
* `new Date(s)` may produce an invalid date, so a parsed timestamp is an
  `Option Int` (milliseconds, `none` = invalid).  `setHours(0,0,0,0)`
  floors a timestamp to the start of its calendar day; the embedding works
  in a fixed (UTC) timezone, so it is a floor division by the number of
  milliseconds in a day.
* JS numeric subtraction of possibly-`undefined` counters (or invalid
  dates) yields `NaN`; `Array.prototype.sort` treats a `NaN` comparator
  result as `+0`, so the embedded comparator returns `0` in that case.
* `Array.prototype.sort` is required by ECMAScript to be stable; it is
  modelled by a stable insertion sort on the comparator.
* Fallible remote calls become `Except`; an `Except.error` result is the
  `catch` branch, and producing `Except.ok`/issuing a request only happens
  when no local validation error fired.
-/

/-- Author object as delivered by the backend (`post.author`); every field
may be absent (`post.author?.first_name` etc.). -/
structure Author where
  first_name : Option String
  last_name : Option String
  email : Option String
  company : Option String
  job_title : Option String
deriving DecidableEq, Repr

/-- A social-media post as consumed by `App.jsx`/`PostForm.jsx`.
`post_date` is the result of `new Date(post.post_date)` (`none` when the
date string fails to parse); counters may be missing. -/
structure Post where
  id : Nat
  author : Option Author
  text : Option String
  category : Option String
  post_date : Option Int
  likes : Option Int
  comments : Option Int
  total_engagements : Option Int
  engagement_rate : Option Rat
deriving DecidableEq, Repr

/-- Filter criteria held in `App.jsx` state: text inputs are strings
(empty = no constraint), the date inputs are the parse results of the
`<input type=date>` values (`none` = empty input). -/
structure Criteria where
  search : String
  category : String
  firstName : String
  lastName : String
  dateFrom : Option Int
  dateTo : Option Int
deriving DecidableEq, Repr

/-- ASCII lowering of a string, as a character list (`.toLowerCase()`;
the posts' text and names are basic-latin in this embedding). -/
def toLowerL (s : String) : List Char := s.toList.map Char.toLower

/-- `sub` occurs as a contiguous run inside `s` (both as char lists). -/
def containsSub (s sub : List Char) : Bool :=
  match s with
  | [] => sub.isEmpty
  | _ :: t => sub.isPrefixOf s || containsSub t sub

/-- JS `s.toLowerCase().includes(sub.toLowerCase())`: the lowered `sub`
is a contiguous substring of the lowered `s`. -/
def jsIncludes (s sub : String) : Bool :=
  containsSub (toLowerL s) (toLowerL sub)

/-- `!search || (post.text || "").toLowerCase().includes(search.toLowerCase())` -/
def matchesSearch (c : Criteria) (p : Post) : Bool :=
  c.search == "" || jsIncludes (p.text.getD "") c.search

/-- `category === "All Categories" || (post.category || "") === category` -/
def matchesCategory (c : Criteria) (p : Post) : Bool :=
  c.category == "All Categories" || (p.category.getD "") == c.category

/-- `!firstName || (post.author?.first_name || "").toLowerCase().includes(firstName.toLowerCase())` -/
def matchesFirstName (c : Criteria) (p : Post) : Bool :=
  c.firstName == "" ||
    jsIncludes ((p.author.bind Author.first_name).getD "") c.firstName

/-- `!lastName || (post.author?.last_name || "").toLowerCase().includes(lastName.toLowerCase())` -/
def matchesLastName (c : Criteria) (p : Post) : Bool :=
  c.lastName == "" ||
    jsIncludes ((p.author.bind Author.last_name).getD "") c.lastName

/-- Milliseconds in one day. -/
def msPerDay : Int := 86400000

/-- `setHours(0,0,0,0)`: floor a timestamp to the start of its calendar
day (floor division so pre-epoch days are handled like the local-midnight
truncation). -/
def dayStart (t : Int) : Int := msPerDay * (Int.fdiv t msPerDay)

/-- The `matchesDateFrom` boolean of the date-range block: it stays `true`
when no date bound is supplied; inside the `if (dateFrom || dateTo)` block
an unparsable `post_date` forces it to `false`, otherwise it compares the
day-normalized post date against the day-normalized `from` bound. -/
def matchesDateFrom (c : Criteria) (p : Post) : Bool :=
  if c.dateFrom.isSome || c.dateTo.isSome then
    match p.post_date with
    | some t =>
      match c.dateFrom with
      | some f => decide (dayStart f ≤ dayStart t)
      | none => true
    | none => false
  else true

/-- The `matchesDateTo` boolean: the `to` bound is moved to the end of its
day (`setHours(23,59,59,999)`) before the comparison, and an unparsable
`post_date` forces `false` whenever any date bound is supplied. -/
def matchesDateTo (c : Criteria) (p : Post) : Bool :=
  if c.dateFrom.isSome || c.dateTo.isSome then
    match p.post_date with
    | some t =>
      match c.dateTo with
      | some u => decide (dayStart t ≤ dayStart u + (msPerDay - 1))
      | none => true
    | none => false
  else true

/-- The final filter predicate of `App.jsx`: the conjunction of the six
sub-predicates. -/
def matchesPost (c : Criteria) (p : Post) : Bool :=
  matchesSearch c p && matchesCategory c p && matchesFirstName c p &&
    matchesLastName c p && matchesDateFrom c p && matchesDateTo c p

/-- `const filtered = posts.filter(post => ...)` -/
def filtered (posts : List Post) (c : Criteria) : List Post :=
  posts.filter (matchesPost c)

/-- The initial (cleared) filter state of `App.jsx`. -/
def emptyCriteria : Criteria :=
  { search := "", category := "All Categories", firstName := "", lastName := ""
    dateFrom := none, dateTo := none }

/-- JS subtraction `x - y` of two possibly-missing numbers; a missing
operand (or an invalid date) makes the result `NaN`, which
`Array.prototype.sort` treats as `+0`. -/
def subOpt : Option Int → Option Int → Int
  | some x, some y => x - y
  | some _, none => 0
  | none, _ => 0

/-- The metric selected by the sort key: the `switch` of the `App.jsx`
comparator, with `"Most Recent"` (the post date) as the `default` branch. -/
def sortField (key : String) (p : Post) : Option Int :=
  match key with
  | "Highest Engagement" => p.total_engagements
  | "Most Liked" => p.likes
  | "Most Commented" => p.comments
  | _ => p.post_date

/-- The sort comparator of `App.jsx` (`sorted = filtered.sort((a, b) => ...)`):
every branch of the `switch` returns `b.<metric> - a.<metric>` (descending
by value). -/
def compareJS (key : String) (a b : Post) : Int :=
  subOpt (sortField key b) (sortField key a)

/-- The (non-strict) order induced by the comparator: `a` may come before
`b` exactly when the comparator does not ask to swap them. -/
def jsLe (key : String) (a b : Post) : Prop := compareJS key a b <= 0

instance (key : String) (a b : Post) : Decidable (jsLe key a b) := by
  unfold jsLe; infer_instance

/-- Stable insertion of `x` into a list: `x` is placed before the first
element it need not follow (so among comparator-ties the earlier input
element stays first, as ECMAScript requires of `sort`). -/
def jsInsert (key : String) (x : Post) : List Post -> List Post
  | [] => [x]
  | y :: l => if compareJS key x y <= 0 then x :: y :: l else y :: jsInsert key x l

/-- `Array.prototype.sort` with the `App.jsx` comparator, modelled as a
stable insertion sort. -/
def jsSort (key : String) : List Post -> List Post
  | [] => []
  | x :: l => jsInsert key x (jsSort key l)

lemma subOpt_total (x y : Option Int) (h : 0 < subOpt x y) : subOpt y x <= 0 := by
  cases x with
  | none => cases y <;> simp [subOpt]
  | some a =>
    cases y with
    | none => simp [subOpt]
    | some b =>
      simp [subOpt] at h ⊢
      omega

lemma compareJS_total (key : String) (a b : Post) (h : 0 < compareJS key a b) :
    compareJS key b a <= 0 :=
  subOpt_total _ _ h

lemma jsLe_of_not_le (key : String) (x y : Post) (h : ¬ compareJS key x y <= 0) :
    jsLe key y x :=
  compareJS_total key x y (by omega)

lemma head?_jsInsert (key : String) (x : Post) (l : List Post) :
    (jsInsert key x l).head? = some x ∨ (jsInsert key x l).head? = l.head? := by
  cases l with
  | nil => left; rfl
  | cons y t =>
    by_cases h : compareJS key x y <= 0
    · left; simp [jsInsert, h]
    · right; simp [jsInsert, h]

lemma chain'_jsInsert (key : String) (x : Post) (l : List Post)
    (hl : List.Chain' (jsLe key) l) :
    List.Chain' (jsLe key) (jsInsert key x l) := by
  induction l with
  | nil => simp [jsInsert]
  | cons y t ih =>
    rw [List.chain'_cons'] at hl
    by_cases h : compareJS key x y <= 0
    · rw [jsInsert, if_pos h, List.chain'_cons']
      exact ⟨fun z hz => by simp at hz; exact hz ▸ h, List.chain'_cons'.mpr hl⟩
    · rw [jsInsert, if_neg h, List.chain'_cons']
      refine ⟨fun z hz => ?_, ih hl.2⟩
      rcases head?_jsInsert key x t with he | he
      · rw [he] at hz
        simp at hz
        exact hz ▸ jsLe_of_not_le key x y h
      · rw [he] at hz
        exact hl.1 z hz

lemma chain'_jsSort (key : String) (l : List Post) :
    List.Chain' (jsLe key) (jsSort key l) := by
  induction l with
  | nil => simp [jsSort]
  | cons x t ih => exact chain'_jsInsert key x _ ih

lemma jsSort_of_chain' (key : String) (l : List Post)
    (hl : List.Chain' (jsLe key) l) : jsSort key l = l := by
  induction l with
  | nil => rfl
  | cons x t ih =>
    rw [List.chain'_cons'] at hl
    rw [jsSort, ih hl.2]
    cases t with
    | nil => rfl
    | cons y t' =>
      have hxy : compareJS key x y <= 0 := hl.1 y rfl
      rw [jsInsert, if_pos hxy]

lemma jsInsert_perm (key : String) (x : Post) (l : List Post) :
    (jsInsert key x l).Perm (x :: l) := by
  induction l with
  | nil => rfl
  | cons y t ih =>
    by_cases h : compareJS key x y <= 0
    · rw [jsInsert, if_pos h]
    · rw [jsInsert, if_neg h]
      exact (ih.cons y).trans (List.Perm.swap x y t)

lemma jsSort_perm (key : String) (l : List Post) : (jsSort key l).Perm l := by
  induction l with
  | nil => rfl
  | cons x t ih =>
    exact (jsInsert_perm key x (jsSort key t)).trans (ih.cons x)

/-- `Math.ceil(sorted.length / POSTS_PER_PAGE)` from `App.jsx` (the page
size is the constant `POSTS_PER_PAGE = 3`; it is kept as a parameter).
`Math.ceil` of the exact (rational) quotient. -/
def totalPages (l : List Post) (per : Nat) : Nat :=
  (Int.ceil ((l.length : Rat) / (per : Rat))).toNat

/-- `sorted.slice((page - 1) * POSTS_PER_PAGE, page * POSTS_PER_PAGE)`:
drop the elements before the window, keep at most one page. -/
def paginate (l : List Post) (per page : Nat) : List Post :=
  (l.drop ((page - 1) * per)).take per

/-- `setTotalPages(res.data.total_pages || 1)` in the delegated `App.jsx`:
a missing or falsy (`0`) value is replaced by the default. -/
def jsOrNat (x : Option Nat) (d : Nat) : Nat :=
  match x with
  | some n => if n = 0 then d else n
  | none => d

lemma ceilDiv_bounds (n per : Nat) (hper : 0 < per) :
    n ≤ ((n + per - 1) / per) * per ∧ ((n + per - 1) / per) * per < n + per := by
  have hmod := Nat.div_add_mod (n + per - 1) per
  rw [Nat.mul_comm] at hmod
  have hlt := Nat.mod_lt (n + per - 1) hper
  omega

lemma totalPages_eq (l : List Post) (per : Nat) (hper : 0 < per) :
    totalPages l per = (l.length + per - 1) / per := by
  unfold totalPages
  have hper' : (0 : Rat) < (per : Rat) := by exact_mod_cast hper
  obtain ⟨q, hq⟩ : ∃ q, (l.length + per - 1) / per = q := ⟨_, rfl⟩
  have hb := ceilDiv_bounds l.length per hper
  rw [hq] at hb ⊢
  have hceil : Int.ceil ((l.length : Rat) / (per : Rat)) = (q : Int) := by
    rw [Int.ceil_eq_iff]
    constructor
    · rw [lt_div_iff₀ hper']
      have h2 : (q : Rat) * (per : Rat) < (l.length : Rat) + (per : Rat) := by
        exact_mod_cast hb.2
      push_cast
      nlinarith
    · rw [div_le_iff₀ hper']
      have h1 : (l.length : Rat) ≤ (q : Rat) * (per : Rat) := by
        exact_mod_cast hb.1
      push_cast
      linarith
  rw [hceil]
  exact Int.toNat_natCast _

lemma length_le_totalPages_mul (l : List Post) (per : Nat) (hper : 0 < per) :
    l.length ≤ totalPages l per * per := by
  rw [totalPages_eq l per hper]
  exact (ceilDiv_bounds l.length per hper).1

lemma paginate_succ (l : List Post) (per i : Nat) :
    paginate l per (i + 1) = (l.drop (i * per)).take per := by
  simp [paginate]

lemma flatten_paginate_range (l : List Post) (per : Nat) :
    ∀ k : Nat, ((List.range k).map (fun i => paginate l per (i + 1))).flatten
      = l.take (k * per)
  | 0 => by simp
  | k + 1 => by
    rw [List.range_succ, List.map_append, List.flatten_append,
      flatten_paginate_range l per k]
    simp only [List.map_cons, List.map_nil, List.flatten_cons, List.flatten_nil,
      List.append_nil, paginate_succ]
    rw [Nat.succ_mul, List.take_add]

/-- The stats summary computed by `header.jsx` (lines 7-13).
`avgEngagement` keeps the numeric content of `toFixed(1)`; the final
string rendering and `formatNumber` display are out of scope. -/
structure StatsSummary where
  totalPosts : Nat
  totalLikes : Int
  totalComments : Int
  avgEngagementRate : Rat
deriving DecidableEq, Repr

/-- Numeric content of JS `x.toFixed(1)`: round to the nearest multiple of
`1/10`, ties away from zero upward (ECMAScript picks the larger candidate). -/
def toFixed1 (q : Rat) : Rat := ((round (q * 10) : Int) : Rat) / 10

/-- The Stats Aggregator of `header.jsx`: counts, `reduce` sums with a
missing counter as 0 (`p.likes || 0`), and the average engagement rate
guarded by `totalPosts ? ... : 0` and displayed via `toFixed(1)`. -/
def aggregate (posts : List Post) : StatsSummary :=
  { totalPosts := posts.length
    totalLikes := (posts.map (fun p => p.likes.getD 0)).sum
    totalComments := (posts.map (fun p => p.comments.getD 0)).sum
    avgEngagementRate :=
      if posts.length ≠ 0 then
        toFixed1 (((posts.map (fun p => p.engagement_rate.getD 0)).sum)
          / (posts.length : Rat))
      else 0 }

/-- The edit form's draft: the seven controlled inputs of `PostForm.jsx`
(each always a string; in edit mode they are pre-filled from the post). -/
structure Draft where
  firstName : String
  lastName : String
  email : String
  company : String
  jobTitle : String
  text : String
  category : String
deriving DecidableEq, Repr

/-- The change-set (`updateData`) built by the edit branch of
`handleSubmit`: `none` = field omitted from the object; for the optional
author fields `some none` is an explicit JSON `null`. -/
structure ChangeSet where
  first_name : Option String
  last_name : Option String
  email : Option String
  company : Option (Option String)
  job_title : Option (Option String)
  text : Option String
  category : Option (Option String)
deriving DecidableEq, Repr

/-- `post?.author?.<field> || ""`: the original value of an author field,
a missing author or field read as the empty string. -/
def origField (p : Post) (f : Author → Option String) : String :=
  (p.author.bind f).getD ""

/-- JS `String.prototype.trim`: strip leading and trailing whitespace
(computed on the character list so that it evaluates by `decide`). -/
def jsTrim (s : String) : String :=
  String.mk (((s.toList.dropWhile Char.isWhitespace).reverse.dropWhile
    Char.isWhitespace).reverse)

/-- Split a character list at the first occurrence of `c`: `none` when `c`
does not occur. -/
def splitAtChar (c : Char) : List Char → Option (List Char × List Char)
  | [] => none
  | x :: t =>
    if x = c then some ([], t)
    else
      match splitAtChar c t with
      | some (l, r) => some (x :: l, r)
      | none => none

/-- The JS test of `/^[^\s@]+@[^\s@]+\.[^\s@]+$/`: exactly one `@` split
(the local part has no `@` because the split is at the first one, and the
domain part is checked); a nonempty whitespace-free local part; a
whitespace- and `@`-free domain part that can be split at some `.` with
nonempty text on both sides (so some `.` sits strictly inside it). -/
def emailOk (s : String) : Bool :=
  match splitAtChar '@' s.toList with
  | some (loc, dom) =>
    (!loc.isEmpty && loc.all (fun ch => !ch.isWhitespace)) &&
      ((dom.all (fun ch => !ch.isWhitespace && !(ch == '@'))) &&
        ((dom.drop 1).dropLast.contains '.'))
  | none => false

/-- `updateData` as computed by the edit branch of `handleSubmit` in
`PostForm.jsx` (lines 43-72): required fields are included only when
non-blank after trimming and different from the original; the optional
`company`/`job_title` are included whenever the trimmed draft differs from
the original, an empty string becoming `null`; `category` is compared
untrimmed. -/
def changeSet (p : Post) (d : Draft) : ChangeSet :=
  { first_name :=
      if jsTrim d.firstName ≠ "" ∧ jsTrim d.firstName ≠ origField p Author.first_name
      then some (jsTrim d.firstName) else none
    last_name :=
      if jsTrim d.lastName ≠ "" ∧ jsTrim d.lastName ≠ origField p Author.last_name
      then some (jsTrim d.lastName) else none
    email :=
      if jsTrim d.email ≠ "" ∧ jsTrim d.email ≠ origField p Author.email
      then some (jsTrim d.email) else none
    company :=
      if jsTrim d.company ≠ origField p Author.company
      then some (if jsTrim d.company = "" then none else some (jsTrim d.company))
      else none
    job_title :=
      if jsTrim d.jobTitle ≠ origField p Author.job_title
      then some (if jsTrim d.jobTitle = "" then none else some (jsTrim d.jobTitle))
      else none
    text :=
      if jsTrim d.text ≠ "" ∧ jsTrim d.text ≠ p.text.getD ""
      then some (jsTrim d.text) else none
    category :=
      if d.category ≠ "" ∧ d.category ≠ p.category.getD ""
      then some (if d.category = "" then none else some d.category)
      else none }

/-- `Object.keys(updateData).length === 0`. -/
def ChangeSet.isEmpty (c : ChangeSet) : Bool :=
  c.first_name.isNone && c.last_name.isNone && c.email.isNone &&
    c.company.isNone && c.job_title.isNone && c.text.isNone && c.category.isNone

/-- The two locally raised errors of the edit branch: the email-shape
check (`ValidationError`) and the empty-diff check (`NoChangesError`). -/
inductive EditError where
  | validationError : EditError
  | noChangesError : EditError
deriving DecidableEq, Repr

/-- The edit branch of `handleSubmit`: validate a non-blank email first,
then build `updateData`; an empty change-set is rejected before any
request, and `Except.ok` is the `axios.put` payload. -/
def submitEdit (p : Post) (d : Draft) : Except EditError ChangeSet :=
  if jsTrim d.email ≠ "" ∧ emailOk (jsTrim d.email) = false then
    Except.error EditError.validationError
  else
    let u := changeSet p d
    if u.isEmpty then Except.error EditError.noChangesError
    else Except.ok u

/-- `err.response?.data?.detail || <fallback>`: a missing or empty detail
string falls back to the default message (JS `||` on strings). -/
def jsOrStr (x : Option String) (d : String) : String :=
  match x with
  | some t => if t = "" then d else t
  | none => d

/-- A remote call failure (network/storage), the `catch` branches' input. -/
inductive RemoteError where
  | remoteError : Option String → RemoteError
deriving DecidableEq, Repr

/-- Body of a successful `GET /posts` response in the delegated mode
(`res.data`); every field may be missing. -/
structure FetchResp where
  posts : Option (List Post)
  total_pages : Option Nat
  total : Option Nat
deriving DecidableEq, Repr

/-- The `App.jsx` state touched by the fetch/delete flows: the displayed
collection, pagination data, the loading flag and the toast notification
(`some (message, isError)` when shown). -/
structure AppState where
  posts : List Post
  totalPages : Nat
  total : Nat
  loading : Bool
  toast : Option (String × Bool)
deriving DecidableEq, Repr

/-- One completed `fetchPosts` call of the delegated `App.jsx`: on success
the response fields are stored (`res.data.posts || []`,
`res.data.total_pages || 1`, `res.data.total || 0`); the `catch` branch
logs and resets to an empty display; `finally` clears `loading`. -/
def fetchPostsStep (s : AppState) (r : Except RemoteError FetchResp) : AppState :=
  match r with
  | Except.ok d =>
    { s with posts := d.posts.getD [], totalPages := jsOrNat d.total_pages 1
             total := d.total.getD 0, loading := false }
  | Except.error _ =>
    { s with posts := [], totalPages := 1, total := 0, loading := false }

/-- The default message of the delete `catch` branch. -/
def deleteFailedMsg : String := "Failed to delete post. Please try again."

/-- One completed `DELETE /posts/id` call of `PostCard.jsx`: on success a
success toast is shown (the refresh is a separate `fetchPosts` step); the
`catch` branch only raises an error toast (`onError` -> `showToast`),
leaving the displayed collection and pagination untouched. -/
def handleDeleteStep (s : AppState) (r : Except RemoteError Unit) : AppState :=
  match r with
  | Except.ok _ => { s with toast := some ("Post deleted successfully! ✓", false) }
  | Except.error (RemoteError.remoteError detail) =>
    { s with toast := some (jsOrStr detail deleteFailedMsg, true) }

/-- `hideToast` / the toast's close button: dismiss the notification. -/
def hideToast (s : AppState) : AppState := { s with toast := none }

/-! Concrete fixtures used by the witnesses and counterexamples. -/

/-- A post with five likes and no other data (id 1). -/
def tiePostA : Post :=
  { id := 1, author := none, text := none, category := none, post_date := none
    likes := some 5, comments := none, total_engagements := none
    engagement_rate := none }

/-- The same metrics as `tiePostA` but a larger id. -/
def tiePostB : Post := { tiePostA with id := 2 }

/-- A post whose only populated metric is an engagement rate of `1/8`. -/
def ratePost : Post := { tiePostA with engagement_rate := some ((1 : Rat)/8) }

/-- A post with text and category but no author and an invalid date. -/
def samplePost : Post :=
  { id := 3, author := none, text := some "Hello World", category := some "Product"
    post_date := some 1700000000000, likes := some 3, comments := some 1
    total_engagements := some 10, engagement_rate := none }

/-- Criteria selecting a concrete category. -/
def catCriteria : Criteria := { emptyCriteria with category := "Marketing" }

/-- A post whose `category` field is absent. -/
def noCatPost : Post := { samplePost with id := 4, category := none }

/-- An original post with a full author, as loaded into the edit form. -/
def origPost : Post :=
  { id := 7
    author := some
      { first_name := some "Ada", last_name := some "Lovelace"
        email := some "ada@calc.org", company := some "Acme"
        job_title := some "Engineer" }
    text := some "Hi", category := some "Product", post_date := some 0
    likes := some 0, comments := some 0, total_engagements := some 0
    engagement_rate := none }

/-- An edit draft of `origPost` that blanks `firstName` (required) and
clears `company` and `jobTitle` (optional). -/
def clearingDraft : Draft :=
  { firstName := "", lastName := "Lovelace", email := "ada@calc.org"
    company := "", jobTitle := "", text := "Hi", category := "Product" }

/-- An original post whose stored email does not match the email shape. -/
def badEmailPost : Post :=
  { origPost with
    author := some
      { first_name := some "Ada", last_name := some "Lovelace"
        email := some "invalid", company := none, job_title := none } }

/-- The draft pre-filled from `badEmailPost` and submitted unchanged. -/
def identicalDraft : Draft :=
  { firstName := "Ada", lastName := "Lovelace", email := "invalid"
    company := "", jobTitle := "", text := "Hi", category := "Product" }

/-- An app state currently displaying one post across two pages. -/
def appState0 : AppState :=
  { posts := [tiePostA], totalPages := 2, total := 4, loading := false
    toast := none }

/-- The draft pre-filled from `origPost` and submitted unchanged. -/
def origDraft : Draft :=
  { firstName := "Ada", lastName := "Lovelace", email := "ada@calc.org"
    company := "Acme", jobTitle := "Engineer", text := "Hi"
    category := "Product" }

instance {e a : Type} [DecidableEq e] [DecidableEq a] :
    DecidableEq (Except e a) := fun x y =>
  match x, y with
  | Except.ok u, Except.ok v =>
    if h : u = v then isTrue (by rw [h])
    else isFalse (fun he => by cases he; exact h rfl)
  | Except.error u, Except.error v =>
    if h : u = v then isTrue (by rw [h])
    else isFalse (fun he => by cases he; exact h rfl)
  | Except.ok _, Except.error _ => isFalse (fun he => by cases he)
  | Except.error _, Except.ok _ => isFalse (fun he => by cases he)

/-! The claims. -/

/-- C1 (counterexample): the comparator does not break ties by `id`
ascending: two posts with equal `likes` arrive in descending-id order and
`"Most Liked"` sorting leaves them there, not in the id-ascending order
the claim requires. -/
theorem claim1_counterexample :
    tiePostB.likes = tiePostA.likes ∧ tiePostA.id < tiePostB.id ∧
    jsSort "Most Liked" [tiePostB, tiePostA] = [tiePostB, tiePostA] ∧
    jsSort "Most Liked" [tiePostB, tiePostA] ≠ [tiePostA, tiePostB] := by
  decide

/-- C1 (amended): for every sort key the comparator orders posts by that
key's metric descending (`jsLe` holds along the output) with no tie-break
at all — the stable sort keeps tied posts in input order — the output is a
permutation of the input, and sorting an already-sorted sequence yields
the same sequence (sorting twice is idempotent). -/
theorem claim1_sort_descending_idempotent :
    ∀ (key : String) (l : List Post),
      List.Chain' (jsLe key) (jsSort key l) ∧
      (jsSort key l).Perm l ∧
      jsSort key (jsSort key l) = jsSort key l :=
  fun key l =>
    ⟨chain'_jsSort key l, jsSort_perm key l,
      jsSort_of_chain' key _ (chain'_jsSort key l)⟩

/-- C3 (confirmed): a post whose `postDate` fails to parse is excluded by
the filter as soon as one date bound is supplied, and with no date bound
the two date sub-predicates hold for it. -/
theorem claim3_invalid_date_excluded_iff_bounded (c : Criteria) (p : Post)
    (hd : p.post_date = none) :
    ((c.dateFrom.isSome ∨ c.dateTo.isSome) → matchesPost c p = false) ∧
    (c.dateFrom = none → c.dateTo = none →
      matchesDateFrom c p = true ∧ matchesDateTo c p = true) := by
  constructor
  · intro hb
    have hcond : (c.dateFrom.isSome || c.dateTo.isSome) = true := by
      rcases hb with h | h <;> simp [h]
    have h1 : matchesDateFrom c p = false := by
      simp [matchesDateFrom, hcond, hd]
    simp [matchesPost, h1]
  · intro hf ht
    simp [matchesDateFrom, matchesDateTo, hf, ht]

/-- C3 witness: with a `dateFrom` bound a post with an unparsable date is
filtered out; with no date bounds its date sub-predicates match. -/
theorem claim3_witness :
    matchesPost { emptyCriteria with dateFrom := some 1704844800000 } tiePostA = false ∧
    (matchesDateFrom emptyCriteria tiePostA = true ∧
      matchesDateTo emptyCriteria tiePostA = true) :=
  ⟨(claim3_invalid_date_excluded_iff_bounded _ tiePostA (by decide)).1
      (Or.inl (by decide)),
    (claim3_invalid_date_excluded_iff_bounded emptyCriteria tiePostA
      (by decide)).2 (by decide) (by decide)⟩

/-- C4 (confirmed): filtering keeps an order-preserving subsequence (so a
subset, never adding or duplicating), a post of the collection is kept iff
all six sub-predicates hold, and an excluded post fails at least one
sub-predicate. -/
theorem claim4_filter_sound_complete (posts : List Post) (c : Criteria) :
    (filtered posts c).Sublist posts ∧
    (∀ p : Post, p ∈ filtered posts c ↔
      p ∈ posts ∧ (matchesSearch c p = true ∧ matchesCategory c p = true ∧
        matchesFirstName c p = true ∧ matchesLastName c p = true ∧
        matchesDateFrom c p = true ∧ matchesDateTo c p = true)) ∧
    (∀ p : Post, p ∈ posts → p ∉ filtered posts c →
      matchesSearch c p = false ∨ matchesCategory c p = false ∨
      matchesFirstName c p = false ∨ matchesLastName c p = false ∨
      matchesDateFrom c p = false ∨ matchesDateTo c p = false) := by
  refine ⟨List.filter_sublist _, fun p => ?_, fun p hp hnp => ?_⟩
  · rw [filtered, List.mem_filter]
    simp [matchesPost, Bool.and_eq_true, and_assoc]
  · rw [filtered, List.mem_filter] at hnp
    have hm : matchesPost c p = false := by
      cases h : matchesPost c p
      · rfl
      · exact absurd ⟨hp, h⟩ hnp
    revert hm
    unfold matchesPost
    cases matchesSearch c p <;> cases matchesCategory c p <;>
      cases matchesFirstName c p <;> cases matchesLastName c p <;>
        cases matchesDateFrom c p <;> cases matchesDateTo c p <;> simp

/-- C4 witness: a post excluded by a concrete category filter demonstrably
fails one of the six sub-predicates. -/
theorem claim4_witness :
    matchesSearch catCriteria samplePost = false ∨
    matchesCategory catCriteria samplePost = false ∨
    matchesFirstName catCriteria samplePost = false ∨
    matchesLastName catCriteria samplePost = false ∨
    matchesDateFrom catCriteria samplePost = false ∨
    matchesDateTo catCriteria samplePost = false :=
  (claim4_filter_sound_complete [samplePost] catCriteria).2.2 samplePost
    (by decide) (by decide)

/-- C10 (confirmed): under a concrete (non-sentinel, nonempty) category
criterion, a post with an absent or empty `category` is compared as the
empty string, fails the category sub-predicate and is excluded. -/
theorem claim10_absent_category_excluded (c : Criteria) (p : Post)
    (hcat : p.category.getD "" = "") (hAll : c.category ≠ "All Categories")
    (hne : c.category ≠ "") :
    matchesCategory c p = false ∧ matchesPost c p = false := by
  have h1 : matchesCategory c p = false := by
    simp only [matchesCategory, hcat, Bool.or_eq_false_iff, beq_eq_false_iff_ne,
      ne_eq]
    exact ⟨hAll, fun h => hne h.symm⟩
  exact ⟨h1, by simp [matchesPost, h1]⟩

/-- C10 witness: the category-less post is rejected by the `"Marketing"`
criterion. -/
theorem claim10_witness :
    matchesCategory catCriteria noCatPost = false ∧
    matchesPost catCriteria noCatPost = false :=
  claim10_absent_category_excluded catCriteria noCatPost (by decide) (by decide)
    (by decide)

/-- C5 (counterexample): for the empty collection the client-side
`Math.ceil(sorted.length / POSTS_PER_PAGE)` is `0`, not the minimum of `1`
the claim requires. -/
theorem claim5_counterexample :
    totalPages [] 3 = 0 ∧ ¬ 1 ≤ totalPages [] 3 := by
  have h := totalPages_eq [] 3 (by norm_num)
  rw [h]
  exact ⟨rfl, by decide⟩

/-- C5 (amended): `totalPages` is exactly `ceil(totalCount / pageSize)`
(the Nat ceiling division) with no minimum clamp: it is at least 1 for a
nonempty collection but `0` for the empty one; only the delegated caller's
`setTotalPages(res.data.total_pages || 1)` replaces a falsy value by 1. -/
theorem claim5_totalPages_ceil_no_min (l : List Post) (per : Nat)
    (hper : 0 < per) :
    totalPages l per = (l.length + per - 1) / per ∧
    (l ≠ [] → 1 ≤ totalPages l per) ∧
    totalPages [] per = 0 ∧
    (∀ tp : Option Nat, 1 ≤ jsOrNat tp 1) := by
  refine ⟨totalPages_eq l per hper, fun hl => ?_, ?_, fun tp => ?_⟩
  · rw [totalPages_eq l per hper]
    rw [Nat.one_le_div_iff hper]
    have : l.length ≠ 0 := fun h => hl (List.length_eq_zero.mp h)
    omega
  · rw [totalPages_eq [] per hper]
    simp only [List.length_nil, Nat.zero_add]
    exact Nat.div_eq_of_lt (by omega)
  · match tp with
    | none => exact Nat.le_refl 1
    | some n =>
      by_cases h : n = 0
      · simp [jsOrNat, h]
      · simp [jsOrNat, h]
        omega

/-- C5 witness: a one-post collection with page size 3 has one page. -/
theorem claim5_witness : 1 ≤ totalPages [tiePostA] 3 :=
  (claim5_totalPages_ceil_no_min [tiePostA] 3 (by norm_num)).2.1 (by simp)

/-- C6 (confirmed): page `p` is exactly the window of zero-indexed
positions `[(p-1)*per, p*per)` of the sequence, a page past the end yields
an empty slice, and concatenating pages `1..totalPages` rebuilds the
sequence (each element once). -/
theorem claim6_pagination_window_roundtrip (l : List Post) (per page : Nat)
    (hper : 0 < per) (hpage : 1 ≤ page) :
    paginate l per page = (l.take (page * per)).drop ((page - 1) * per) ∧
    (l.length ≤ (page - 1) * per → paginate l per page = []) ∧
    ((List.range (totalPages l per)).map
      (fun i => paginate l per (i + 1))).flatten = l := by
  refine ⟨?_, fun hlen => ?_, ?_⟩
  · have h2 : per ≤ page * per := Nat.le_mul_of_pos_left per hpage
    rw [List.drop_take, Nat.sub_mul, Nat.one_mul, Nat.sub_sub_self h2]
    unfold paginate
    rw [Nat.sub_mul, Nat.one_mul]
  · unfold paginate
    rw [List.drop_eq_nil_of_le hlen, List.take_nil]
  · rw [flatten_paginate_range l per (totalPages l per)]
    exact List.take_of_length_le (length_le_totalPages_mul l per hper)

/-- C6 witness: page 2 of a one-post collection with page size 3 is the
empty slice (out of range, no failure). -/
theorem claim6_witness : paginate [tiePostA] 3 2 = [] :=
  (claim6_pagination_window_roundtrip [tiePostA] 3 2 (by norm_num)
    (by norm_num)).2.1 (by simp)

/-- C2 (confirmed): clearing an optional field (`company`/`jobTitle`) from
a non-empty original to blank puts an explicit `null` (`some none`) in the
change-set, while clearing any required field (`firstName`, `lastName`,
`email`, `text`) to blank omits it from the change-set entirely (`none`,
so it is never sent, as `null` or otherwise). -/
theorem claim2_optional_null_required_omitted (p : Post) (d : Draft) :
    (origField p Author.company ≠ "" → jsTrim d.company = "" →
      (changeSet p d).company = some none) ∧
    (origField p Author.job_title ≠ "" → jsTrim d.jobTitle = "" →
      (changeSet p d).job_title = some none) ∧
    (jsTrim d.firstName = "" → (changeSet p d).first_name = none) ∧
    (jsTrim d.lastName = "" → (changeSet p d).last_name = none) ∧
    (jsTrim d.email = "" → (changeSet p d).email = none) ∧
    (jsTrim d.text = "" → (changeSet p d).text = none) := by
  refine ⟨fun h1 h2 => ?_, fun h1 h2 => ?_, fun h => ?_, fun h => ?_,
    fun h => ?_, fun h => ?_⟩ <;>
    first
      | simp [changeSet, h2, Ne.symm h1]
      | simp [changeSet, h]

/-- C2 witness: blanking `origPost`'s `company` yields an explicit null
while blanking its required `firstName` is omitted from the change-set. -/
theorem claim2_witness :
    (changeSet origPost clearingDraft).company = some none ∧
    (changeSet origPost clearingDraft).first_name = none :=
  ⟨(claim2_optional_null_required_omitted origPost clearingDraft).1
      (by decide) (by decide),
    (claim2_optional_null_required_omitted origPost clearingDraft).2.2.1
      (by decide)⟩

/-- C7 (counterexample): the email-shape validation runs before the
empty-diff check, so a draft identical to an original whose stored email
is malformed produces an empty change-set yet fails with the validation
error, not `NoChangesError`. -/
theorem claim7_counterexample :
    (changeSet badEmailPost identicalDraft).isEmpty = true ∧
    submitEdit badEmailPost identicalDraft
      = Except.error EditError.validationError ∧
    submitEdit badEmailPost identicalDraft
      ≠ Except.error EditError.noChangesError := by
  decide

/-- C7 (amended): provided the trimmed draft email is blank or passes the
email-shape test (the validation that runs first), an empty computed
change-set makes the edit fail with `NoChangesError`, and no update
request is issued (`Except.ok`, the `axios.put` payload, is never
produced); in particular a draft identical to an original with a valid or
absent email fails with `NoChangesError`. -/
theorem claim7_empty_diff_no_changes_error (p : Post) (d : Draft)
    (hmail : jsTrim d.email = "" ∨ emailOk (jsTrim d.email) = true)
    (hempty : (changeSet p d).isEmpty = true) :
    submitEdit p d = Except.error EditError.noChangesError := by
  unfold submitEdit
  have hcond : ¬ (jsTrim d.email ≠ "" ∧ emailOk (jsTrim d.email) = false) := by
    rcases hmail with h | h <;> simp [h]
  rw [if_neg hcond]
  simp [hempty]

/-- C7 witness: submitting the pre-filled draft of `origPost` (valid
email) unchanged fails with `NoChangesError`. -/
theorem claim7_witness :
    submitEdit origPost origDraft = Except.error EditError.noChangesError :=
  claim7_empty_diff_no_changes_error origPost origDraft
    (Or.inr (by decide)) (by decide)

/-- C8 (counterexample): `avgEngagementRate` is not the exact arithmetic
mean: a singleton collection with engagement rate `1/8` has mean `1/8`,
but the aggregator (through `toFixed(1)`) yields `1/10`. -/
theorem claim8_counterexample :
    ([ratePost].map (fun p => p.engagement_rate.getD 0)).sum
        / ((([ratePost] : List Post).length : Nat) : Rat) = 1/8 ∧
    (aggregate [ratePost]).avgEngagementRate = 1/10 ∧
    ((1 : Rat)/10) ≠ 1/8 := by
  refine ⟨?_, ?_, by norm_num⟩
  · simp [ratePost, tiePostA]
  · simp only [aggregate, toFixed1, ratePost, tiePostA]
    norm_num [round_eq]

/-- C8 (amended): the aggregator returns the collection size and the exact
sums of the per-post counters (a missing counter as 0); the average
engagement rate is the arithmetic mean rounded to one decimal
(`toFixed(1)`), with `0` for the empty collection; `aggregate []` is all
zeros and the result is invariant under reordering of the input. -/
theorem claim8_aggregate_rounded_mean :
    aggregate [] = ⟨0, 0, 0, 0⟩ ∧
    (∀ l : List Post, (aggregate l).totalPosts = l.length ∧
      (aggregate l).totalLikes = (l.map (fun p => p.likes.getD 0)).sum ∧
      (aggregate l).totalComments = (l.map (fun p => p.comments.getD 0)).sum) ∧
    (∀ l : List Post, l ≠ [] → (aggregate l).avgEngagementRate
        = toFixed1 ((l.map (fun p => p.engagement_rate.getD 0)).sum
            / (l.length : Rat))) ∧
    (∀ l₁ l₂ : List Post, l₁.Perm l₂ → aggregate l₁ = aggregate l₂) := by
  refine ⟨rfl, fun l => ⟨rfl, rfl, rfl⟩, fun l hl => ?_, fun l₁ l₂ hp => ?_⟩
  · have hlen : l.length ≠ 0 := fun h => hl (List.length_eq_zero.mp h)
    simp [aggregate, hlen]
  · have hlen := hp.length_eq
    have hlikes := (hp.map (fun p => p.likes.getD 0)).sum_eq
    have hcom := (hp.map (fun p => p.comments.getD 0)).sum_eq
    have hrate := (hp.map (fun p => p.engagement_rate.getD 0)).sum_eq
    simp [aggregate, hlen, hlikes, hcom, hrate]

/-- C8 witness: the rounded-mean equation at a singleton collection, and
order-invariance at a concrete two-post swap. -/
theorem claim8_witness :
    (aggregate [ratePost]).avgEngagementRate
      = toFixed1 (([ratePost].map (fun p => p.engagement_rate.getD 0)).sum
          / ((([ratePost] : List Post).length : Nat) : Rat)) ∧
    aggregate [tiePostA, ratePost] = aggregate [ratePost, tiePostA] :=
  ⟨claim8_aggregate_rounded_mean.2.2.1 [ratePost] (by simp),
    claim8_aggregate_rounded_mean.2.2.2 [tiePostA, ratePost]
      [ratePost, tiePostA] (List.Perm.swap ratePost tiePostA [])⟩

/-- C9 (counterexample): a failed posts fetch does not preserve the
original state: the delegated `App.jsx` `catch` branch clears the
displayed collection and resets the pagination data, and raises no
notification (the toast stays hidden). -/
theorem claim9_counterexample :
    (fetchPostsStep appState0
        (Except.error (RemoteError.remoteError none))).posts ≠ appState0.posts ∧
    (fetchPostsStep appState0
        (Except.error (RemoteError.remoteError none))).totalPages
      ≠ appState0.totalPages ∧
    (fetchPostsStep appState0
        (Except.error (RemoteError.remoteError none))).total ≠ appState0.total ∧
    (fetchPostsStep appState0
        (Except.error (RemoteError.remoteError none))).toast = none := by
  decide

/-- C9 (amended): a failed fetch resets the display to an empty collection
(`posts = []`, `totalPages = 1`, `total = 0`) with no notification, while
a failed delete leaves the displayed collection, total count and
pagination unchanged and surfaces the error as a toast that `hideToast`
dismisses; each failure is a single state transition — the model consumes
exactly one response, so no automatic retry occurs. -/
theorem claim9_failure_transitions :
    ∀ (s : AppState) (e : RemoteError) (d : Option String),
      fetchPostsStep s (Except.error e)
        = { s with posts := [], totalPages := 1, total := 0
                   loading := false } ∧
      (handleDeleteStep s
        (Except.error (RemoteError.remoteError d))).posts = s.posts ∧
      (handleDeleteStep s
        (Except.error (RemoteError.remoteError d))).totalPages = s.totalPages ∧
      (handleDeleteStep s
        (Except.error (RemoteError.remoteError d))).total = s.total ∧
      (handleDeleteStep s
        (Except.error (RemoteError.remoteError d))).toast
        = some (jsOrStr d deleteFailedMsg, true) ∧
      hideToast (handleDeleteStep s
        (Except.error (RemoteError.remoteError d))) = { s with toast := none } := by
  intro s e d
  cases e
  exact ⟨rfl, rfl, rfl, rfl, rfl, rfl⟩
